import Mathlib

/-!
Shallow embedding of `src/error.rs`: a type-erased error handle (`Error`)
wrapping an arbitrary concrete error value, with runtime type identity,
backtrace capture, cause-chain iteration, downcasting and drop accounting.

A concrete Rust error value (any `E: StdError + Send + Sync + 'static`) is
modelled by `ErrVal`: its runtime `TypeId`, its raw bytes (`payload`), its
`Display` output, the backtrace its own `backtrace()` method supplies, and
its `source()` chain (each source is itself an error value; the chain is
modelled by the list of successive nodes, which covers every finite acyclic
chain). The vtable/`TraitObject` machinery of the Rust code only serves to
re-invoke the concrete value's behaviour through the erased pointer; in the
shallow embedding the stored `ErrVal` carries that behaviour directly.
-/

namespace ErrModel

/-- Status of a `std::backtrace::Backtrace`, as matched in `impl Debug for Error`. -/
inductive BacktraceStatus where
  | captured
  | disabled
  | unsupported
deriving DecidableEq, Repr

/-- A `std::backtrace::Backtrace` value: its status and its rendered body. -/
structure Backtrace where
  status : BacktraceStatus
  body : String
deriving DecidableEq, Repr

/-- Runtime type identity (`std::any::TypeId`). `base n` is the `TypeId` of an
ordinary concrete type; `messageError t` is `TypeId::of::<MessageError<M>>`
for the `M` whose `TypeId` is `t` (a distinct type from `M` itself). -/
inductive TypeId where
  | base (n : Nat)
  | messageError (t : TypeId)
deriving DecidableEq, Repr

/-- One error value's own data: runtime type, raw bytes, `Display` output and
the backtrace its `backtrace()` method returns (`None` unless the type
overrides the default). -/
structure ErrNode where
  typeId : TypeId
  payload : Nat
  display : String
  backtrace : Option Backtrace
deriving DecidableEq, Repr

/-- A concrete error value: its own node plus the nodes of its successive
`source()` errors (empty list means `source()` is `None`). -/
structure ErrVal where
  node : ErrNode
  causes : List ErrNode
deriving DecidableEq, Repr

/-- The value's runtime `TypeId` (`TypeId::of::<E>` for the value's type). -/
def ErrVal.typeId (e : ErrVal) : TypeId := e.node.typeId

/-- The value's raw bytes. -/
def ErrVal.payload (e : ErrVal) : Nat := e.node.payload

/-- The value's `Display` rendering. -/
def ErrVal.display (e : ErrVal) : String := e.node.display

/-- The value's own `backtrace()` method (`StdError::backtrace`). -/
def ErrVal.backtrace (e : ErrVal) : Option Backtrace := e.node.backtrace

/-- The value's `source()` method (`StdError::source`): its cause, if any. -/
def ErrVal.source : ErrVal → Option ErrVal
  | ⟨_, []⟩ => none
  | ⟨_, c :: cs⟩ => some ⟨c, cs⟩

/-- The full cause chain of an error value, root first: the value, then its
source, then the source's source, and so on. -/
def chainAux : ErrNode → List ErrNode → List ErrVal
  | n, [] => [⟨n, []⟩]
  | n, c :: cs => ⟨n, c :: cs⟩ :: chainAux c cs

/-- Cause chain of an error value, root first. -/
def ErrVal.chain (e : ErrVal) : List ErrVal := chainAux e.node e.causes

/-- An ad hoc message value `M: Display + Debug + Send + Sync + 'static`:
its runtime type, raw bytes, and `Display` output. -/
structure Msg where
  typeId : TypeId
  payload : Nat
  display : String
deriving DecidableEq, Repr

/-- `MessageError<M>(m)` (error.rs:220-235): a `repr(transparent)` wrapper
around the message, so its bytes are the message's bytes. Its `Display`
delegates to the message's; its `StdError` impl is empty, so `source()` and
`backtrace()` are the defaults (`None`). Its own runtime type is
`MessageError<M>`, distinct from `M`. -/
def MessageError (m : Msg) : ErrVal :=
  ⟨⟨TypeId.messageError m.typeId, m.payload, m.display, none⟩, []⟩

/-- Reinterpreting a stored error value's bytes at a message type `tid`
(the cast in `downcast_ref`, valid for `MessageError<M>` because the wrapper
is `repr(transparent)`: its bytes are exactly the message's bytes). -/
def ErrVal.asMsg (e : ErrVal) (tid : TypeId) : Msg :=
  ⟨tid, e.payload, e.display⟩

/-- The heap record behind a handle (`struct ErrorImpl<E>`, error.rs:205-211),
with the value's static type erased (`ErrorImpl<()>`). The `vtable` field is
the behaviour descriptor used to rebuild the trait object; in the shallow
embedding the stored `ErrVal` carries its behaviour itself, so the record
keeps the remaining fields. -/
structure ErrorImpl where
  type_id : TypeId
  backtrace : Option Backtrace
  error : ErrVal
deriving DecidableEq, Repr

/-- The `Error` handle (error.rs:18-20): sole owner of its heap record. -/
structure Error where
  inner : ErrorImpl
deriving DecidableEq, Repr

/-- `Error::construct` (error.rs:44-65). `captured` is the backtrace that
`Backtrace::capture()` would produce at this construction point (its status
reflects the process-wide `RUST_BACKTRACE` toggle); it is stored only when
the error value does not supply its own backtrace. -/
def Error.construct (error : ErrVal) (type_id : TypeId) (captured : Backtrace) : Error :=
  { inner :=
      { type_id := type_id
      , backtrace :=
          match error.backtrace with
          | some _ => none
          | none => some captured
      , error := error } }

/-- `Error::new` (error.rs:29-34): wrap a concrete error value, recording its
type's `TypeId`. -/
def Error.new (error : ErrVal) (captured : Backtrace) : Error :=
  Error.construct error error.typeId captured

/-- `Error::new_adhoc` (error.rs:37-42): wrap a message in `MessageError`,
but record `TypeId::of::<M>` — the message's own type, not the wrapper's. -/
def Error.new_adhoc (message : Msg) (captured : Backtrace) : Error :=
  Error.construct (MessageError message) message.typeId captured

/-- `Error::backtrace` (error.rs:78-86): the construction-captured backtrace
if one was captured, otherwise the one the value itself supplies. The Rust
code `expect`s the result; `none` models that panic. -/
def Error.backtrace (self : Error) : Option Backtrace :=
  self.inner.backtrace.orElse fun _ => self.inner.error.backtrace

/-- `Error::is` (error.rs:99-101): does `TypeId::of::<E>` equal the stored
type identity token? -/
def Error.is (tid : TypeId) (self : Error) : Bool :=
  tid == self.inner.type_id

/-- `Error::downcast_ref` (error.rs:118-124): a borrowed view of the stored
value when the identity matches. -/
def Error.downcast_ref (tid : TypeId) (self : Error) : Option ErrVal :=
  if Error.is tid self then some self.inner.error else none

/-- `Error::downcast` (error.rs:104-115): on a match, move the value out
(`ptr::read`) and return it; otherwise hand the handle itself back. -/
def Error.downcast (tid : TypeId) (self : Error) : Except Error ErrVal :=
  match Error.downcast_ref tid self with
  | some error => Except.ok error
  | none => Except.error self

/-- `Display for Error` (error.rs:189-193): exactly the stored root error's
own rendering. -/
def Error.displayFmt (self : Error) : String :=
  self.inner.error.display

/-- The `Errors` iterator state (error.rs:258-260). -/
structure Errors where
  next : Option ErrVal
deriving DecidableEq, Repr

/-- `Error::errors` (error.rs:92-96): a fresh walk starting at the stored
root error. -/
def Error.errors (self : Error) : Errors :=
  ⟨some self.inner.error⟩

/-- One `Iterator::next` call on `Errors` (error.rs:265-269):
`let next = self.next.take()?; self.next = next.source(); Some(next)`.
Returns the yielded item and the iterator's new state. -/
def Errors.step : Errors → Option ErrVal × Errors
  | ⟨none⟩ => (none, ⟨none⟩)
  | ⟨some e⟩ => (some e, ⟨e.source⟩)

/-- The item produced by the `(n+1)`-th consecutive `next` call. -/
def Errors.stepN (it : Errors) : Nat → Option ErrVal × Errors
  | 0 => it.step
  | n + 1 => (it.step).2.stepN n

/-- Items collected by calling `next` up to `fuel` times, stopping at the
first `None` (how a `for` loop consumes the iterator). -/
def Errors.collect : Nat → Errors → List ErrVal
  | 0, _ => []
  | fuel + 1, it =>
      match Errors.step it with
      | (none, _) => []
      | (some e, it') => e :: Errors.collect fuel it'

/-- The fixed explanatory line printed when the backtrace status is
`Disabled` (error.rs:176-180; the `\` in the Rust literal joins the two
source lines into one string). `writeln!` appends the trailing newline. -/
def disabledLine : String :=
  "\nbacktrace disabled; run with RUST_BACKTRACE=1 environment variable to display a backtrace\n"

/-- One numbered line of the `caused by:` block: `writeln!(f, "\t{}: {}", n, error)`. -/
def causedByLine (p : Nat × ErrVal) : String :=
  "\t" ++ toString p.1 ++ ": " ++ p.2.display ++ "\n"

/-- Sequential output of one numbered line per enumerated chain element
(the `for (n, error) in errors` loop body, repeated). -/
def renderLines : List (Nat × ErrVal) → String
  | [] => ""
  | p :: rest => causedByLine p ++ renderLines rest

/-- The `caused by:` block (error.rs:159-167): enumerate the chain elements
after the root; if the first exists (`if let Some((n, error)) = errors.next()`),
print a blank line, `caused by:`, its numbered line, then one numbered line
per remaining element; otherwise print nothing. -/
def causedByBlock (l : List ErrVal) : String :=
  match l.enum with
  | [] => ""
  | first :: rest => "\ncaused by:\n" ++ causedByLine first ++ renderLines rest

/-- The trailing backtrace section (error.rs:171-183): by the backtrace's
status, a blank line and the trace body, or the fixed disabled-notice, or
nothing. -/
def backtraceSection (backtrace : Backtrace) : String :=
  match backtrace.status with
  | BacktraceStatus.captured => "\n" ++ backtrace.body ++ "\n"
  | BacktraceStatus.disabled => disabledLine
  | BacktraceStatus.unsupported => ""

/-- `Debug for Error` (error.rs:155-187), line by line: the root error's
display and a newline; if `errors().skip(1)` yields anything, a blank line,
`caused by:`, and one numbered line per remaining chain element (enumerated
from 0); then, by the status of `self.backtrace()`, a blank line and the
trace body, or a blank line and the fixed disabled-notice, or nothing.
`self.backtrace()` panics (`expect`) when no backtrace exists; `none` models
that panic. The elements `errors().skip(1)` yields are the stored error's
cause chain minus its root (established by `collect_chain` below). -/
def Error.debugFmt (self : Error) : Option String :=
  (Error.backtrace self).map fun backtrace =>
    self.inner.error.display ++ "\n"
    ++ causedByBlock (self.inner.error.chain.drop 1)
    ++ backtraceSection backtrace

/-- The backtrace a constructed handle is associated with, as §4.3 of the
specification words it: the one captured at construction if one was
captured, otherwise the one the value supplies. -/
def specEffectiveBacktrace (v : ErrVal) (captured : Backtrace) : Backtrace :=
  match v.backtrace with
  | some b => b
  | none => captured

/-- The debug rendering as the specification's §4.2 template words it: the
root's display line; then, only when the chain has a deeper cause, a blank
line, `caused by:`, and one tab-indented numbered line per subsequent chain
element starting at 0; then a blank line and the trace body when the status
is captured, a blank line and the fixed explanatory line when disabled, and
nothing otherwise. Stated over the value's chain directly, to be compared
with `Error.debugFmt` (which follows the code). -/
def specDebugRendering (v : ErrVal) (captured : Backtrace) : String :=
  v.display ++ "\n"
  ++ (if v.chain.length ≤ 1 then ""
      else "\ncaused by:\n" ++ renderLines (v.chain.drop 1).enum)
  ++ (match (specEffectiveBacktrace v captured).status with
      | BacktraceStatus.captured => "\n" ++ (specEffectiveBacktrace v captured).body ++ "\n"
      | BacktraceStatus.disabled => disabledLine
      | BacktraceStatus.unsupported => "")

/-!
Destructor accounting. The unsafe lifecycle operations of error.rs are given
an explicit resource semantics: a `LifeState` tracks whether the record's
value slot, the heap allocation, and any `ptr::read`-extracted copy are
live, and counts how many times the wrapped value's destructor has run.
Each primitive below models one operation of the source.
-/

/-- Ownership state of the heap record behind one handle, plus the number of
times the wrapped value's destructor has run. -/
structure LifeState where
  valueLive : Bool
  recordLive : Bool
  extractedLive : Bool
  valueDrops : Nat
deriving DecidableEq, Repr

/-- State right after `Error::construct`: the record owns a live value, no
extracted copy exists, the destructor has not run. -/
def initLife : LifeState :=
  { valueLive := true, recordLive := true, extractedLive := false, valueDrops := 0 }

/-- `ptr::drop_in_place(self.inner.error_mut())` (error.rs:200): runs the
wrapped value's destructor (unconditionally — running it on a dead slot
would be a double drop, visible as `valueDrops > 1`). -/
def ptrDropInPlaceValue (s : LifeState) : LifeState :=
  { s with valueLive := false, valueDrops := s.valueDrops + 1 }

/-- Dropping the `Box<ErrorImpl<()>>`: frees the allocation and drops the
record's remaining fields (vtable pointer, `TypeId`, `Option<Backtrace>`);
the erased field has type `()`, so the wrapped value's destructor does not
run. -/
def boxFree (s : LifeState) : LifeState :=
  { s with recordLive := false }

/-- `ptr::read(error)` (error.rs:107): bitwise-moves the value out; the
caller now owns the only live copy and the record's slot no longer does. -/
def ptrReadOut (s : LifeState) : LifeState :=
  { s with valueLive := false, extractedLive := true }

/-- `mem::forget(self)` (error.rs:109): suppresses `Drop for Error`; no
effect on the state. -/
def memForget (s : LifeState) : LifeState := s

/-- The caller eventually drops the extracted value: its destructor runs. -/
def dropExtracted (s : LifeState) : LifeState :=
  { s with extractedLive := false, valueDrops := s.valueDrops + 1 }

/-- Dropping an `Error` handle: `Drop for Error` runs `drop_in_place` on the
erased value (error.rs:198-202), then the `Box` field is dropped, freeing
the record. -/
def errorDropGlue (s : LifeState) : LifeState :=
  boxFree (ptrDropInPlaceValue s)

/-- End-to-end state after `downcast` and the caller's subsequent cleanup,
following the branch `Error::downcast` actually takes on this handle: on a
match, `ptr::read` of the value, `drop(ptr::read(&self.inner))` (the boxed
record is dropped), `mem::forget(self)`, then the caller drops the extracted
value; on a mismatch the caller receives `Err(self)` and drops the handle. -/
def downcastLifecycle (tid : TypeId) (self : Error) : LifeState :=
  match Error.downcast tid self with
  | Except.ok _ => dropExtracted (memForget (boxFree (ptrReadOut initLife)))
  | Except.error _ => errorDropGlue initLife

/-! Helper lemmas. -/

theorem chainAux_length (n : ErrNode) (cs : List ErrNode) :
    (chainAux n cs).length = cs.length + 1 := by
  induction cs generalizing n with
  | nil => rfl
  | cons c cs ih => simp [chainAux, ih]

theorem chain_length (v : ErrVal) : v.chain.length = v.causes.length + 1 :=
  chainAux_length v.node v.causes

theorem collect_none (fuel : Nat) : Errors.collect fuel ⟨none⟩ = [] := by
  cases fuel <;> rfl

theorem collect_chainAux (cs : List ErrNode) :
    ∀ (n : ErrNode) (fuel : Nat), (chainAux n cs).length ≤ fuel →
      Errors.collect fuel ⟨some ⟨n, cs⟩⟩ = chainAux n cs := by
  induction cs with
  | nil =>
      intro n fuel hfuel
      match fuel, hfuel with
      | fuel + 1, _ =>
          simp [Errors.collect, Errors.step, ErrVal.source, chainAux, collect_none]
  | cons c cs ih =>
      intro n fuel hfuel
      rw [chainAux_length] at hfuel
      match fuel, hfuel with
      | fuel + 1, hfuel =>
          have hle : (chainAux c cs).length ≤ fuel := by
            rw [chainAux_length]
            simp only [List.length_cons] at hfuel
            omega
          simp [Errors.collect, Errors.step, ErrVal.source, chainAux, ih c fuel hle]

theorem chain_head (v : ErrVal) : v.chain.head? = some v := by
  rcases v with ⟨n, cs⟩
  cases cs <;> rfl

theorem chainAux_links (cs : List ErrNode) :
    ∀ n : ErrNode, List.Chain' (fun a b => ErrVal.source a = some b) (chainAux n cs) := by
  induction cs with
  | nil => intro n; simp [chainAux]
  | cons c cs ih =>
      intro n
      have hmem : (chainAux c cs).head? = some ⟨c, cs⟩ := chain_head ⟨c, cs⟩
      simp only [chainAux]
      exact List.Chain'.cons' (ih c) (by intro y hy; rw [hmem] at hy; cases hy; rfl)

theorem messageError_ne (t : TypeId) : TypeId.messageError t ≠ t := by
  induction t with
  | base n => intro h; cases h
  | messageError t ih => intro h; exact ih (TypeId.messageError.inj h)

theorem inner_error_new (v : ErrVal) (c : Backtrace) :
    (Error.new v c).inner.error = v := rfl

theorem inner_type_id_construct (v : ErrVal) (tid : TypeId) (c : Backtrace) :
    (Error.construct v tid c).inner.type_id = tid := rfl

theorem backtrace_construct (v : ErrVal) (tid : TypeId) (c : Backtrace) :
    Error.backtrace (Error.construct v tid c) = some (specEffectiveBacktrace v c) := by
  rcases v with ⟨⟨t, p, d, bt⟩, cs⟩
  cases bt <;>
    simp [Error.construct, Error.backtrace, ErrVal.backtrace, specEffectiveBacktrace,
      Option.orElse]

theorem is_construct (v : ErrVal) (tid t : TypeId) (c : Backtrace) :
    Error.is t (Error.construct v tid c) = (t == tid) := rfl

theorem is_new (v : ErrVal) (t : TypeId) (c : Backtrace) :
    Error.is t (Error.new v c) = (t == v.typeId) := rfl

theorem is_new_adhoc (m : Msg) (t : TypeId) (c : Backtrace) :
    Error.is t (Error.new_adhoc m c) = (t == m.typeId) := rfl

theorem inner_error_new_adhoc (m : Msg) (c : Backtrace) :
    (Error.new_adhoc m c).inner.error = MessageError m := rfl

theorem errors_new (v : ErrVal) (c : Backtrace) :
    Error.errors (Error.new v c) = ⟨some v⟩ := rfl

theorem collect_errors_new (v : ErrVal) (c : Backtrace) (fuel : Nat)
    (hfuel : v.chain.length ≤ fuel) :
    Errors.collect fuel (Error.errors (Error.new v c)) = v.chain := by
  rcases v with ⟨n, cs⟩
  exact collect_chainAux cs n fuel hfuel

/-! Claim theorems. -/

/-- C1: wrapping a value `v` of concrete type A and downcasting-by-value to A
returns exactly `v`; downcasting to any other type B returns the original
handle unchanged; and on any handle the operation returns exactly one of the
extracted value or the handle itself — never both, never neither. -/
theorem downcast_roundtrip :
    ∀ (v : ErrVal) (c : Backtrace) (tidB : TypeId),
      Error.downcast v.typeId (Error.new v c) = Except.ok v
      ∧ (tidB ≠ v.typeId →
          Error.downcast tidB (Error.new v c) = Except.error (Error.new v c))
      ∧ (∀ h : Error,
          (Error.downcast tidB h = Except.error h
            ∧ ∀ e, ¬ Error.downcast tidB h = Except.ok e)
          ∨ ((∃ e, Error.downcast tidB h = Except.ok e)
            ∧ ¬ Error.downcast tidB h = Except.error h)) := by
  intro v c tidB
  refine ⟨?_, ?_, ?_⟩
  · simp [Error.downcast, Error.downcast_ref, is_new, inner_error_new]
  · intro hne
    simp [Error.downcast, Error.downcast_ref, is_new, hne]
  · intro h
    by_cases hb : Error.is tidB h
    · right
      refine ⟨⟨h.inner.error, ?_⟩, ?_⟩ <;> simp [Error.downcast, Error.downcast_ref, hb]
    · left
      refine ⟨?_, fun e => ?_⟩ <;> simp [Error.downcast, Error.downcast_ref, hb]

theorem downcast_roundtrip_witness :
    Error.downcast (TypeId.base 0)
        (Error.new ⟨⟨TypeId.base 0, 7, "disk full", none⟩, []⟩
          ⟨BacktraceStatus.disabled, ""⟩)
      = Except.ok ⟨⟨TypeId.base 0, 7, "disk full", none⟩, []⟩
    ∧ Error.downcast (TypeId.base 1)
        (Error.new ⟨⟨TypeId.base 0, 7, "disk full", none⟩, []⟩
          ⟨BacktraceStatus.disabled, ""⟩)
      = Except.error
          (Error.new ⟨⟨TypeId.base 0, 7, "disk full", none⟩, []⟩
            ⟨BacktraceStatus.disabled, ""⟩) :=
  ⟨(downcast_roundtrip ⟨⟨TypeId.base 0, 7, "disk full", none⟩, []⟩
      ⟨BacktraceStatus.disabled, ""⟩ (TypeId.base 1)).1,
   (downcast_roundtrip ⟨⟨TypeId.base 0, 7, "disk full", none⟩, []⟩
      ⟨BacktraceStatus.disabled, ""⟩ (TypeId.base 1)).2.1 (by decide)⟩

/-- C2: a handle built from a value of type A always reports a positive
identity match for A, never for a distinct type B, and the identity check
depends only on the value's type: values of the same concrete type yield
handles that answer every identity query alike. -/
theorem is_identity_sound :
    ∀ (v w : ErrVal) (c c2 : Backtrace) (tid : TypeId),
      Error.is v.typeId (Error.new v c) = true
      ∧ (tid ≠ v.typeId → Error.is tid (Error.new v c) = false)
      ∧ (v.typeId = w.typeId →
          ∀ t, Error.is t (Error.new v c) = Error.is t (Error.new w c2)) := by
  intro v w c c2 tid
  refine ⟨?_, ?_, ?_⟩
  · simp [is_new]
  · intro hne; simp [is_new, hne]
  · intro heq t; simp [is_new, heq]

theorem is_identity_sound_witness :
    Error.is (TypeId.base 0)
        (Error.new ⟨⟨TypeId.base 0, 7, "disk full", none⟩, []⟩
          ⟨BacktraceStatus.disabled, ""⟩) = true
    ∧ Error.is (TypeId.base 1)
        (Error.new ⟨⟨TypeId.base 0, 7, "disk full", none⟩, []⟩
          ⟨BacktraceStatus.disabled, ""⟩) = false
    ∧ Error.is (TypeId.base 0)
        (Error.new ⟨⟨TypeId.base 0, 7, "disk full", none⟩, []⟩
          ⟨BacktraceStatus.disabled, ""⟩)
      = Error.is (TypeId.base 0)
          (Error.new ⟨⟨TypeId.base 0, 99, "other value", none⟩, []⟩
            ⟨BacktraceStatus.captured, "trace"⟩) :=
  ⟨(is_identity_sound ⟨⟨TypeId.base 0, 7, "disk full", none⟩, []⟩
      ⟨⟨TypeId.base 0, 99, "other value", none⟩, []⟩
      ⟨BacktraceStatus.disabled, ""⟩ ⟨BacktraceStatus.captured, "trace"⟩
      (TypeId.base 1)).1,
   (is_identity_sound ⟨⟨TypeId.base 0, 7, "disk full", none⟩, []⟩
      ⟨⟨TypeId.base 0, 99, "other value", none⟩, []⟩
      ⟨BacktraceStatus.disabled, ""⟩ ⟨BacktraceStatus.captured, "trace"⟩
      (TypeId.base 1)).2.1 (by decide),
   (is_identity_sound ⟨⟨TypeId.base 0, 7, "disk full", none⟩, []⟩
      ⟨⟨TypeId.base 0, 99, "other value", none⟩, []⟩
      ⟨BacktraceStatus.disabled, ""⟩ ⟨BacktraceStatus.captured, "trace"⟩
      (TypeId.base 1)).2.2 (by decide) (TypeId.base 0)⟩

/-- C3: the wrapped value's destructor runs exactly once on every path —
construct then drop the handle; construct, downcast-by-value successfully,
then drop the extracted value; or drop the handle handed back by a failed
downcast — and at the end no live copy or record remains. -/
theorem destructor_exactly_once :
    ∀ (tid : TypeId) (self : Error),
      (errorDropGlue initLife).valueDrops = 1
      ∧ (errorDropGlue initLife).valueLive = false
      ∧ (errorDropGlue initLife).recordLive = false
      ∧ (downcastLifecycle tid self).valueDrops = 1
      ∧ (downcastLifecycle tid self).valueLive = false
      ∧ (downcastLifecycle tid self).extractedLive = false
      ∧ (downcastLifecycle tid self).recordLive = false := by
  intro tid self
  unfold downcastLifecycle
  rcases hd : Error.downcast tid self with h | e <;>
    simp [errorDropGlue, ptrDropInPlaceValue, boxFree, ptrReadOut, memForget,
      dropExtracted, initLife]

/-- C4: a constructed handle's backtrace read always succeeds; a fresh
backtrace is stored at construction exactly when the value supplies none,
and the read returns the construction-captured backtrace when one was
captured, otherwise the value's own. -/
theorem backtrace_always_present :
    ∀ (v : ErrVal) (c : Backtrace),
      (Error.backtrace (Error.new v c)).isSome = true
      ∧ Error.backtrace (Error.new v c) = some (specEffectiveBacktrace v c)
      ∧ (Error.new v c).inner.backtrace
          = (match v.backtrace with | some _ => none | none => some c) := by
  intro v c
  have hbt : Error.backtrace (Error.new v c) = some (specEffectiveBacktrace v c) :=
    backtrace_construct v v.typeId c
  exact ⟨by rw [hbt]; rfl, hbt, rfl⟩

/-- C7: the single-line display rendering of a handle is exactly the wrapped
root error's own display rendering — no prefix, suffix, causes or
backtrace. -/
theorem display_is_root :
    ∀ (v : ErrVal) (c : Backtrace), Error.displayFmt (Error.new v c) = v.display := by
  intro v c
  rfl

/-- C8: a handle built by the ad hoc message constructor reports identity
for the message type M itself and not for the internal `MessageError`
wrapper; downcast by reference and by value both succeed at M and return the
stored value, whose `repr(transparent)` reinterpretation at M is the
original message. -/
theorem adhoc_wrapper_invisible :
    ∀ (m : Msg) (c : Backtrace),
      Error.is m.typeId (Error.new_adhoc m c) = true
      ∧ Error.is (TypeId.messageError m.typeId) (Error.new_adhoc m c) = false
      ∧ Error.downcast_ref m.typeId (Error.new_adhoc m c) = some (MessageError m)
      ∧ Error.downcast m.typeId (Error.new_adhoc m c) = Except.ok (MessageError m)
      ∧ ErrVal.asMsg (MessageError m) m.typeId = m := by
  intro m c
  have hne : TypeId.messageError m.typeId ≠ m.typeId := messageError_ne m.typeId
  refine ⟨?_, ?_, ?_, ?_, rfl⟩
  · simp [is_new_adhoc]
  · simp [is_new_adhoc, hne]
  · simp [Error.downcast_ref, is_new_adhoc, inner_error_new_adhoc]
  · simp [Error.downcast, Error.downcast_ref, is_new_adhoc, inner_error_new_adhoc]

/-- C6: walking the chain of a constructed handle with enough `next` calls
yields exactly the wrapped value's cause chain — one item per chain element,
root first, each followed by its cause — and a fresh walk started again from
the same handle yields the same items. -/
theorem chain_walk_exact :
    ∀ (v : ErrVal) (c : Backtrace) (fuel : Nat),
      v.chain.length ≤ fuel →
        Errors.collect fuel (Error.errors (Error.new v c)) = v.chain
        ∧ v.chain.length = v.causes.length + 1
        ∧ v.chain.head? = some v
        ∧ List.Chain' (fun a b => ErrVal.source a = some b) v.chain
        ∧ ∀ fuel2, v.chain.length ≤ fuel2 →
            Errors.collect fuel2 (Error.errors (Error.new v c))
              = Errors.collect fuel (Error.errors (Error.new v c)) := by
  intro v c fuel hfuel
  refine ⟨collect_errors_new v c fuel hfuel, chain_length v, chain_head v, ?_, ?_⟩
  · rcases v with ⟨n, cs⟩
    exact chainAux_links cs n
  · intro fuel2 h2
    rw [collect_errors_new v c fuel hfuel, collect_errors_new v c fuel2 h2]

theorem chain_walk_exact_witness :
    Errors.collect 2
        (Error.errors
          (Error.new
            ⟨⟨TypeId.base 0, 0, "disk full", none⟩,
              [⟨TypeId.base 1, 1, "write failed", none⟩]⟩
            ⟨BacktraceStatus.disabled, ""⟩))
      = ErrVal.chain
          ⟨⟨TypeId.base 0, 0, "disk full", none⟩,
            [⟨TypeId.base 1, 1, "write failed", none⟩]⟩
    ∧ Errors.collect 9
        (Error.errors
          (Error.new
            ⟨⟨TypeId.base 0, 0, "disk full", none⟩,
              [⟨TypeId.base 1, 1, "write failed", none⟩]⟩
            ⟨BacktraceStatus.disabled, ""⟩))
      = Errors.collect 2
          (Error.errors
            (Error.new
              ⟨⟨TypeId.base 0, 0, "disk full", none⟩,
                [⟨TypeId.base 1, 1, "write failed", none⟩]⟩
              ⟨BacktraceStatus.disabled, ""⟩)) :=
  ⟨(chain_walk_exact
      ⟨⟨TypeId.base 0, 0, "disk full", none⟩,
        [⟨TypeId.base 1, 1, "write failed", none⟩]⟩
      ⟨BacktraceStatus.disabled, ""⟩ 2 (by decide)).1,
   (chain_walk_exact
      ⟨⟨TypeId.base 0, 0, "disk full", none⟩,
        [⟨TypeId.base 1, 1, "write failed", none⟩]⟩
      ⟨BacktraceStatus.disabled, ""⟩ 2 (by decide)).2.2.2.2 9 (by decide)⟩

/-- C10: the chain-walk iterator is fused — as soon as one `next` call
returns no item, every later `next` call on that iterator also returns no
item. -/
theorem errors_iterator_fused :
    ∀ it : Errors, (Errors.step it).1 = none →
      ∀ n, (Errors.stepN it n).1 = none := by
  intro it h
  have hnone : it = ⟨none⟩ := by
    rcases it with ⟨_ | e⟩
    · rfl
    · simp [Errors.step] at h
  subst hnone
  intro n
  induction n with
  | zero => rfl
  | succ n ih => exact ih

theorem causedBy_block_eq (l : List ErrVal) :
    causedByBlock l = if l.length = 0 then "" else "\ncaused by:\n" ++ renderLines l.enum := by
  cases l with
  | nil => rfl
  | cons a as => simp [causedByBlock, List.enum_cons, renderLines, String.append_assoc]

/-- C5: the multi-line debug rendering of every constructed handle follows
the specification's template exactly — root display line; the `caused by:`
block with tab-indented lines numbered from 0 only when a deeper cause
exists; then the captured trace body, the fixed RUST_BACKTRACE notice when
disabled, or nothing — and the spec's golden example (`disk full` caused by
`write failed`, backtrace disabled) renders verbatim. -/
theorem debug_rendering_template :
    (∀ (v : ErrVal) (c : Backtrace),
        Error.debugFmt (Error.new v c) = some (specDebugRendering v c))
    ∧ Error.debugFmt
        (Error.new
          ⟨⟨TypeId.base 0, 0, "disk full", none⟩,
            [⟨TypeId.base 1, 1, "write failed", none⟩]⟩
          ⟨BacktraceStatus.disabled, ""⟩)
      = some ("disk full\n\ncaused by:\n\t0: write failed\n\nbacktrace disabled; "
          ++ "run with RUST_BACKTRACE=1 environment variable to display a backtrace\n") := by
  constructor
  · intro v c
    have hbt : Error.backtrace (Error.new v c) = some (specEffectiveBacktrace v c) :=
      backtrace_construct v v.typeId c
    have hlen : ((v.chain.drop 1).length = 0) = (v.chain.length ≤ 1) := by
      rw [List.length_drop, chain_length]
      exact propext (by omega)
    unfold Error.debugFmt specDebugRendering
    rw [hbt]
    simp only [Option.map_some', inner_error_new, Option.some.injEq]
    rw [causedBy_block_eq]
    simp only [hlen]
    cases hst : (specEffectiveBacktrace v c).status <;>
      simp [backtraceSection, hst]
  · rfl

theorem errors_iterator_fused_witness :
    (Errors.stepN
        (Errors.step
          (Error.errors
            (Error.new ⟨⟨TypeId.base 0, 7, "disk full", none⟩, []⟩
              ⟨BacktraceStatus.disabled, ""⟩))).2 4).1 = none :=
  errors_iterator_fused
    (Errors.step
      (Error.errors
        (Error.new ⟨⟨TypeId.base 0, 7, "disk full", none⟩, []⟩
          ⟨BacktraceStatus.disabled, ""⟩))).2 (by rfl) 4

end ErrModel
